import Mathlib

/-!
Shallow embedding of the task-lifecycle and archive-decoding core of the
`osm_data_client` package (files `models.py` and `api.py`), together with
theorems settling the specification claims about it.

Conventions of the embedding:
* Python `dict` values appearing in JSON payloads are modelled by the
  inductive type `JVal`; a dict is an association list with distinct keys,
  looked up by `jlookup` (first match, as Python key lookup).
* A Python function that can `raise` is modelled with `Except` (or a
  dedicated outcome inductive when several distinct exception kinds can
  escape, as in `get_osm_data`, where a `KeyError` is possible).
* Network effects are modelled by passing the sequence of responses the
  remote service would produce as an explicit argument; `asyncio.sleep`
  is modelled by counting the total slept duration.
-/

namespace OsmClient

/-- JSON-like values, the payloads exchanged with the Raw Data API. -/
inductive JVal where
  | null : JVal
  | boolean : Bool → JVal
  | number : Int → JVal
  | string : String → JVal
  | array : List JVal → JVal
  | object : List (String × JVal) → JVal
deriving Repr

/-- Key lookup in a modelled Python dict (association list, unique keys). -/
def jlookup (fields : List (String × JVal)) (key : String) : Option JVal :=
  match fields with
  | [] => none
  | (k, v) :: rest => if k = key then some v else jlookup rest key

/-- Python truthiness of a `JVal`, as used by `if geometry_dict["features"]:`. -/
def JVal.truthy : JVal → Bool
  | .null => false
  | .boolean b => b
  | .number n => decide (n ≠ 0)
  | .string s => !s.isEmpty
  | .array xs => !xs.isEmpty
  | .object fs => !fs.isEmpty

/-- The validation failures `models.py` can raise as `ValidationError`. -/
inductive ValidationError where
  | invalidGeoJsonString
  | missingTypeField
  | missingCoordinatesField
  | invalidGeometryType (found : JVal)
  | invalidOutputType (found : String)
deriving Repr

/-- The dataclass `GeometryInput` of `models.py`: a validated geometry. -/
structure GeometryInput where
  type : String
  coordinates : JVal
deriving Repr

/-- Lines 40-44 of `models.py` (`GeometryInput.from_input`): when the input
dict is a `FeatureCollection` with a truthy `features` entry, substitute the
first feature's `geometry` dict. The embedding covers inputs on which CPython
completes this block without a `TypeError`/`KeyError`/`IndexError`: when the
truthy `features` value is an array whose head is an object whose `geometry`
entry, if present, is an object. On shapes outside that domain (where CPython
would raise) the model keeps the dict unchanged; no claim quantifies over
those shapes. -/
def substituteFeatureCollection (d : List (String × JVal)) : List (String × JVal) :=
  match jlookup d "type" with
  | some (JVal.string t) =>
    if t = "FeatureCollection" then
      match jlookup d "features" with
      | some fv =>
        if fv.truthy then
          match fv with
          | JVal.array (f :: _) =>
            match f with
            | JVal.object ff =>
              match jlookup ff "geometry" with
              | some (JVal.object gf) => gf
              | _ => d
            | _ => d
          | _ => d
        else d
      | none => d
    else d
  | _ => d

/-- Lines 46-59 of `models.py`: the field-presence and geometry-type checks
performed after the `FeatureCollection` substitution, in source order:
missing `type`, then missing `coordinates`, then `type` not in
`["Polygon", "MultiPolygon"]`. -/
def validateGeometryDict (d : List (String × JVal)) : Except ValidationError GeometryInput :=
  match jlookup d "type" with
  | none => .error .missingTypeField
  | some tv =>
    match jlookup d "coordinates" with
    | none => .error .missingCoordinatesField
    | some cv =>
      match tv with
      | JVal.string t =>
        if t = "Polygon" ∨ t = "MultiPolygon" then .ok ⟨t, cv⟩
        else .error (.invalidGeometryType (JVal.string t))
      | other => .error (.invalidGeometryType other)

/-- The dict path of `GeometryInput.from_input` (`models.py` lines 17-59):
`FeatureCollection` substitution followed by validation. The string path of
the source first parses the JSON text and then follows this same path (a
parse failure is `ValidationError.invalidGeoJsonString`); the claims all
quantify over already-parsed inputs, so the parser is not modelled. -/
def GeometryInput.from_input (d : List (String × JVal)) : Except ValidationError GeometryInput :=
  validateGeometryDict (substituteFeatureCollection d)

example :
    GeometryInput.from_input
      [("type", JVal.string "Polygon"), ("coordinates", JVal.array [])] =
      .ok ⟨"Polygon", JVal.array []⟩ := by rfl

example :
    GeometryInput.from_input
      [("type", JVal.string "Point"), ("coordinates", JVal.array [])] =
      .error (.invalidGeometryType (JVal.string "Point")) := by rfl

example :
    GeometryInput.from_input
      [("type", JVal.string "FeatureCollection"),
       ("features", JVal.array
         [JVal.object [("geometry",
            JVal.object [("type", JVal.string "Polygon"),
                         ("coordinates", JVal.array [JVal.number 1])])],
          JVal.object [("geometry",
            JVal.object [("type", JVal.string "MultiPolygon"),
                         ("coordinates", JVal.array [])])]])] =
      .ok ⟨"Polygon", JVal.array [JVal.number 1]⟩ := by rfl

/-- The dataclass `RequestParams` of `models.py` with its field defaults. -/
structure RequestParams where
  file_name : String := "osm_export"
  output_type : String := "geojson"
  filters : Option JVal := none
  geometry_type : Option (List String) := none
deriving Repr

/-- The class constant `RequestParams.VALID_OUTPUT_TYPES` of `models.py`. -/
def VALID_OUTPUT_TYPES : List String :=
  ["geojson", "shp", "kml", "mbtiles", "flatgeobuf", "csv", "geopackage", "pgdump"]

/-- The keyword arguments accepted by `RequestParams.from_kwargs` (the four
camel-case keys it maps onto the dataclass fields; `none` models an absent
key). Unknown extra keys make CPython's `cls(**params)` raise a `TypeError`
and are outside the modelled domain; no claim quantifies over them. -/
structure Kwargs where
  fileName : Option String := none
  outputType : Option String := none
  filters : Option JVal := none
  geometryType : Option (List String) := none

/-- Lines 82-118 of `models.py` (`RequestParams.from_kwargs`): build the
instance, applying the dataclass defaults for absent keys, then reject it
when `output_type` is not in `VALID_OUTPUT_TYPES`. -/
def RequestParams.from_kwargs (k : Kwargs) : Except ValidationError RequestParams :=
  let inst : RequestParams :=
    { file_name := k.fileName.getD "osm_export"
      output_type := k.outputType.getD "geojson"
      filters := k.filters
      geometry_type := k.geometryType }
  if inst.output_type ∈ VALID_OUTPUT_TYPES then .ok inst
  else .error (.invalidOutputType inst.output_type)

/-! ### Transport client: `request_snapshot` (`api.py` lines 28-61) -/

/-- The data carried by an `APIRequestError` (`exceptions.py`):
the HTTP status code and the parsed response body. -/
structure APIRequestErrorData where
  status_code : Nat
  response_data : JVal
deriving Repr

/-- What one `POST /snapshot/` attempt can amount to, from the point of view
of the `try` block of `request_snapshot`:
* `response`: a response was received and its body parsed as JSON;
* `clientResponseError`: `aiohttp.ClientResponseError` was raised (for
  example `ContentTypeError` when the body is not JSON); it carries the
  status of the response it arose from;
* `otherFailure`: any other exception (timeout, connection reset,
  `json` decode error, ...). -/
inductive SubmitStep where
  | response (httpStatus : Nat) (body : JVal)
  | clientResponseError (status : Nat) (message : String)
  | otherFailure (message : String)

/-- Lines 47-61 of `api.py` (`request_snapshot`). A parsed response with
status ≥ 400 raises `APIRequestError(status, body)` at line 56 — but that
raise sits inside the `try` block, and `APIRequestError` is an `Exception`
that is not a `ClientResponseError`, so the generic `except Exception` at
lines 60-61 re-catches it and what surfaces is `APIRequestError(0, {},
str(ex))`: the original status and body survive only inside the message
string (not modelled), never in the surfaced error's `status_code` and
`response_data` attributes. (Unlike `poll_task_status` and
`download_snapshot`, this function has no `except` clause re-raising its
own error kind first.) A `ClientResponseError` raised by the POST or by
`response.json()` surfaces as `APIRequestError(ex.status, {})`; any other
exception surfaces as `APIRequestError(0, {})`. -/
def request_snapshot (step : SubmitStep) : Except APIRequestErrorData JVal :=
  match step with
  | .response st body =>
    if 400 ≤ st then .error ⟨0, JVal.object []⟩ else .ok body
  | .clientResponseError st _ => .error ⟨st, JVal.object []⟩
  | .otherFailure _ => .error ⟨0, JVal.object []⟩

/-! ### Task poller: `poll_task_status` (`api.py` lines 63-94) -/

/-- The `result` sub-object of a status response
(`{status, result: {download_url?, error_msg?}}`). `none` models an absent
or `null` entry. -/
structure TaskResultObj where
  download_url : Option String := none
  error_msg : Option String := none
deriving Repr

/-- A parsed status-endpoint body: the `status` field (always present in the
modelled domain; a body without it would make line 88 of `api.py` raise a
`KeyError`, wrapped into `TaskPollingError` by line 94) and the optional
`result` object. -/
structure PollBody where
  status : String
  result : Option TaskResultObj := none
deriving Repr

/-- What one GET of the tracking URL can amount to inside the polling loop:
a response whose body parsed as JSON, or an exception. -/
inductive PollStep where
  | response (httpStatus : Nat) (body : PollBody)
  | exnFailure (message : String)

/-- The ways the polling loop can end in the model. `outOfResponses` is an
artefact of passing a finite response sequence: the source loop would keep
polling, so a sequence yielding `outOfResponses` never makes the source
return or raise. Each constructor records the total duration slept. -/
inductive PollOutcome where
  | terminal (body : PollBody) (totalSleep : Nat)
  | pollingError (message : String) (totalSleep : Nat)
  | outOfResponses (totalSleep : Nat)
deriving Repr

/-- The default of the `polling_interval` parameter of `poll_task_status`. -/
def defaultPollingInterval : Nat := 2

/-- Lines 77-94 of `api.py` (`poll_task_status`), driven by the sequence of
responses the service produces: status ≥ 400 raises `TaskPollingError`; a
body whose `status` is in `["SUCCESS", "FAILED"]` is returned; otherwise
sleep `polling_interval` and poll again; any exception in the loop body is
wrapped into `TaskPollingError`. The model's ≥ 400 error message elides the
`: {response_data}` suffix that line 85 appends; no claim inspects that
message. -/
def poll_task_status (polling_interval : Nat) : List PollStep → PollOutcome
  | [] => .outOfResponses 0
  | step :: rest =>
    match step with
    | .exnFailure m => .pollingError ("Error polling task status: " ++ m) 0
    | .response st body =>
      if 400 ≤ st then
        .pollingError ("Polling failed with status " ++ toString st) 0
      else if body.status = "SUCCESS" ∨ body.status = "FAILED" then
        .terminal body 0
      else
        match poll_task_status polling_interval rest with
        | .terminal b t => .terminal b (polling_interval + t)
        | .pollingError m t => .pollingError m (polling_interval + t)
        | .outOfResponses t => .outOfResponses (polling_interval + t)

/-! ### Archive decoder: `_extract_zip_data` (`api.py` lines 124-169) -/

/-- One entry of the downloaded zip archive: its name in the listing and its
(uninterpreted) content. -/
structure ZipEntry where
  name : String
  content : String
deriving Repr

/-- Python substring containment `needle in hay` on lists of characters. -/
def charsContain (needle : List Char) : List Char → Bool
  | [] => needle.isEmpty
  | c :: t => needle.isPrefixOf (c :: t) || charsContain needle t

/-- Python substring containment `needle in hay` on strings. -/
def strContains (hay needle : String) : Bool :=
  charsContain needle.data hay.data

/-- Lines 144-148 of `api.py`: the selection loop. Starting from the default
`all_files[1]`, take the first name that contains `file_name` as a
substring. -/
def findDataFile (allFiles : List String) (file_name : String) (dflt : String) : String :=
  match allFiles with
  | [] => dflt
  | f :: rest => if strContains f file_name then f else findDataFile rest file_name dflt

/-- The name `_extract_zip_data` opens: `none` when the listing has fewer
than two entries (the error branch of lines 141-142), otherwise the result
of the selection loop seeded with the second entry. -/
def selectDataFile (entries : List ZipEntry) (file_name : String) : Option String :=
  match entries with
  | e0 :: e1 :: rest =>
    some (findDataFile ((e0 :: e1 :: rest).map ZipEntry.name) file_name e1.name)
  | _ => none

/-- The decoded payload (`api.py` lines 150-165): a parsed GeoJSON document,
parsed CSV rows, or the binary triple. The embedding keeps the selected
entry's content uninterpreted (the claims concern entry selection, not the
JSON/CSV grammars). -/
inductive Extracted where
  | geojsonDoc (content : String)
  | csvRows (content : String)
  | binary (format : String) (data : String) (file_name : String)
deriving Repr

/-- Python `s.endswith(post)` on strings, via reversed character lists. -/
def strEndsWith (s post : String) : Bool :=
  post.data.reverse.isPrefixOf s.data.reverse

/-- Python `s.split('.')` on a character list: maximal dot-free chunks,
with empty chunks around consecutive or border dots. -/
def splitDots : List Char → List (List Char)
  | [] => [[]]
  | c :: t =>
    match splitDots t, decide (c = '.') with
    | r, true => [] :: r
    | [], false => [[c]]
    | h :: r, false => (c :: h) :: r

/-- Python `data_file.split('.')[-1]` (`api.py` line 162). -/
def lastDotComponent (s : String) : String :=
  String.mk ((splitDots s.data).getLastD s.data)

/-- Lines 137-169 of `api.py` (`_extract_zip_data`): fail when the listing
has fewer than two entries, otherwise open the selected entry and dispatch
on its extension (`.geojson`, `.csv`, or the binary fallback whose `format`
is the part after the last dot). The `DownloadError` raised by the
too-few-entries branch is re-wrapped by the `except Exception` at lines
168-169, which prefixes `Error extracting data: ` to the surfaced message;
the model elides that cosmetic prefix, and the surfaced message still
states that at least 2 files were expected. -/
def extractZipData (entries : List ZipEntry) (file_name : String) : Except String Extracted :=
  match selectDataFile entries file_name with
  | none =>
    .error ("Expected at least 2 files in the archive, found " ++ toString entries.length)
  | some dataFile =>
    let content :=
      ((entries.find? (fun e => decide (e.name = dataFile))).map ZipEntry.content).getD ""
    if strEndsWith dataFile ".geojson" then .ok (.geojsonDoc content)
    else if strEndsWith dataFile ".csv" then .ok (.csvRows content)
    else .ok (.binary (lastDotComponent dataFile) content dataFile)

/-! ### Orchestrator tail: `get_osm_data` (`api.py` lines 219-230) -/

/-- How `get_osm_data` proceeds once `poll_task_status` has returned:
`downloaded` records a call `download_snapshot(download_url, file_name)`;
`downloadError` is a raised `DownloadError` with its message; `keyError`
is a raised Python `KeyError` with the missing key. -/
inductive GetOsmOutcome where
  | downloaded (download_url : String) (file_name : String)
  | downloadError (message : String)
  | keyError (key : String)
deriving Repr

/-- Python truthiness of an optional string, as used by
`result["result"].get("download_url")` and `.get("error_msg")`:
absent, `null` and `""` are falsy. -/
def optStrTruthy : Option String → Bool
  | none => false
  | some s => !s.isEmpty

/-- Lines 226-230 of `api.py`: build the `DownloadError` message from the
terminal status, appending `result["result"]["error_msg"]` when the `result`
object is present and carries a truthy `error_msg`. -/
def failurePath (r : PollBody) : GetOsmOutcome :=
  let base := "Task failed with status: " ++ r.status
  match r.result with
  | some res =>
    match res.error_msg with
    | some e => if !e.isEmpty then .downloadError (base ++ " - " ++ e) else .downloadError base
    | none => .downloadError base
  | none => .downloadError base

/-- Lines 222-230 of `api.py`: the branch on the terminal poll result. When
`status == "SUCCESS"`, line 222 evaluates `result["result"]`, a `KeyError`
when the key is absent; with a truthy `download_url` the snapshot is
downloaded, otherwise (and for every non-`SUCCESS` status, by
short-circuiting) the failure path raises `DownloadError`. -/
def handleTerminalResult (r : PollBody) (file_name : String) : GetOsmOutcome :=
  if r.status = "SUCCESS" then
    match r.result with
    | none => .keyError "result"
    | some res =>
      if optStrTruthy res.download_url then
        .downloaded (res.download_url.getD "") file_name
      else failurePath r
  else failurePath r

example :
    handleTerminalResult ⟨"SUCCESS", some ⟨some "https://u", none⟩⟩ "osm_export" =
      .downloaded "https://u" "osm_export" := by rfl

example :
    handleTerminalResult ⟨"FAILED", some ⟨none, some "boom"⟩⟩ "osm_export" =
      .downloadError "Task failed with status: FAILED - boom" := by rfl

example :
    handleTerminalResult ⟨"SUCCESS", none⟩ "osm_export" = .keyError "result" := by rfl

example :
    extractZipData [⟨"a.txt", "x"⟩, ⟨"b.geojson", "gj"⟩] "b" = .ok (.geojsonDoc "gj") := by rfl

example :
    extractZipData [⟨"a.txt", "x"⟩, ⟨"b.geojson", "gj"⟩] "zzz" = .ok (.geojsonDoc "gj") := by
  rfl

example :
    extractZipData [⟨"a.txt", "x"⟩] "zzz" =
      .error "Expected at least 2 files in the archive, found 1" := by rfl

example :
    poll_task_status 2
      [.response 200 ⟨"PENDING", none⟩, .response 200 ⟨"STARTED", none⟩,
       .response 200 ⟨"SUCCESS", some ⟨some "u", none⟩⟩] =
      .terminal ⟨"SUCCESS", some ⟨some "u", none⟩⟩ 4 := by rfl

/-! ### Claims about the input validator -/

/-- C6: for every input geometry dict whose `type` field is not `"Polygon"`
and not `"MultiPolygon"` (a geometry, not a `FeatureCollection` — the
collection case is the substitution of lines 40-44), `from_input` fails with
a `ValidationError`. -/
theorem fromInput_rejects_non_polygon_types
    (d : List (String × JVal)) (v : JVal)
    (htype : jlookup d "type" = some v)
    (hP : v ≠ JVal.string "Polygon")
    (hMP : v ≠ JVal.string "MultiPolygon")
    (hFC : v ≠ JVal.string "FeatureCollection") :
    ∃ e, GeometryInput.from_input d = .error e := by
  have hsub : substituteFeatureCollection d = d := by
    unfold substituteFeatureCollection
    rw [htype]
    cases v with
    | string t =>
      have ht : ¬ t = "FeatureCollection" := by
        intro h
        exact hFC (by rw [h])
      simp [ht]
    | null => rfl
    | boolean b => rfl
    | number n => rfl
    | array xs => rfl
    | object fs => rfl
  unfold GeometryInput.from_input
  rw [hsub]
  unfold validateGeometryDict
  rw [htype]
  cases hc : jlookup d "coordinates" with
  | none => exact ⟨_, rfl⟩
  | some cv =>
    cases v with
    | string t =>
      have hpoly : ¬ (t = "Polygon" ∨ t = "MultiPolygon") := by
        rintro (h | h)
        · exact hP (by rw [h])
        · exact hMP (by rw [h])
      simp [hpoly]
    | null => exact ⟨_, rfl⟩
    | boolean b => exact ⟨_, rfl⟩
    | number n => exact ⟨_, rfl⟩
    | array xs => exact ⟨_, rfl⟩
    | object fs => exact ⟨_, rfl⟩

/-- Witness for C6 at the concrete geometry `{type: "Point", coordinates: []}`. -/
theorem fromInput_rejects_non_polygon_types_witness :
    ∃ e, GeometryInput.from_input
      [("type", JVal.string "Point"), ("coordinates", JVal.array [])] = .error e :=
  fromInput_rejects_non_polygon_types _ (JVal.string "Point") rfl
    (by simp) (by simp) (by simp)

/-- C7: for every `FeatureCollection` input with a non-empty `features`
list, `from_input` is exactly the validation of the first feature's
`geometry` dict; the remaining features (`rest`, universally quantified and
absent from the conclusion) are discarded. -/
theorem fromInput_takes_first_feature
    (d ff gf : List (String × JVal)) (rest : List JVal)
    (htype : jlookup d "type" = some (JVal.string "FeatureCollection"))
    (hfeat : jlookup d "features" = some (JVal.array (JVal.object ff :: rest)))
    (hgeom : jlookup ff "geometry" = some (JVal.object gf)) :
    GeometryInput.from_input d = validateGeometryDict gf := by
  have hsub : substituteFeatureCollection d = gf := by
    unfold substituteFeatureCollection
    rw [htype, hfeat]
    simp [JVal.truthy, hgeom]
  unfold GeometryInput.from_input
  rw [hsub]

/-- Witness for C7: a two-feature collection whose first feature holds a
`Polygon`; the second feature plays no role. -/
theorem fromInput_takes_first_feature_witness :
    GeometryInput.from_input
      [("type", JVal.string "FeatureCollection"),
       ("features", JVal.array
         [JVal.object [("geometry",
            JVal.object [("type", JVal.string "Polygon"),
                         ("coordinates", JVal.array [JVal.number 7])])],
          JVal.object [("geometry",
            JVal.object [("type", JVal.string "MultiPolygon"),
                         ("coordinates", JVal.array [])])]])] =
      validateGeometryDict
        [("type", JVal.string "Polygon"), ("coordinates", JVal.array [JVal.number 7])] :=
  fromInput_takes_first_feature _ _ _ _ rfl rfl rfl

/-- C8: `RequestParams.from_kwargs` rejects every `outputType` outside the
eight-member `VALID_OUTPUT_TYPES` with a `ValidationError`, and defaults
`output_type` to `"geojson"` (which validates) when no output type is
supplied. -/
theorem fromKwargs_output_type_validation :
    (∀ (k : Kwargs) (t : String), k.outputType = some t → t ∉ VALID_OUTPUT_TYPES →
      RequestParams.from_kwargs k = .error (.invalidOutputType t)) ∧
    (∀ k : Kwargs, k.outputType = none →
      ∃ p, RequestParams.from_kwargs k = .ok p ∧ p.output_type = "geojson") := by
  constructor
  · intro k t ht hnot
    unfold RequestParams.from_kwargs
    rw [ht]
    simp [hnot]
  · intro k hk
    refine ⟨{ file_name := k.fileName.getD "osm_export", output_type := "geojson",
              filters := k.filters, geometry_type := k.geometryType }, ?_, rfl⟩
    unfold RequestParams.from_kwargs
    rw [hk]
    simp [VALID_OUTPUT_TYPES]

/-- Witness for C8: `outputType = "xml"` is rejected, and omitting the
output type yields the default `"geojson"`. -/
theorem fromKwargs_output_type_validation_witness :
    RequestParams.from_kwargs { outputType := some "xml" } =
      .error (.invalidOutputType "xml") ∧
    ∃ p, RequestParams.from_kwargs {} = .ok p ∧ p.output_type = "geojson" :=
  ⟨fromKwargs_output_type_validation.1 { outputType := some "xml" } "xml" rfl (by decide),
   fromKwargs_output_type_validation.2 {} rfl⟩

/-! ### Claims about the transport client -/

/-- C3 counterexample at the spec's own example input — HTTP 500 with body
`{detail: "boom"}`. The `APIRequestError(500, body)` deliberately raised at
line 56 of `api.py` is re-caught by the generic `except Exception` at lines
60-61, so the error that surfaces carries `status_code` 0 and an empty
object as body — not `status_code == 500` with the parsed body, as the
claim states. -/
theorem requestSnapshot_status_not_preserved_counterexample :
    request_snapshot (.response 500 (JVal.object [("detail", JVal.string "boom")])) =
      .error ⟨0, JVal.object []⟩ ∧
    request_snapshot (.response 500 (JVal.object [("detail", JVal.string "boom")])) ≠
      .error ⟨500, JVal.object [("detail", JVal.string "boom")]⟩ := by
  refine ⟨rfl, ?_⟩
  intro h
  simp [request_snapshot] at h

/-- C3 (amended): every submission failure surfaces as `APIRequestError`
with an empty object as response body. The surfaced status code is 0 both
for generic transport failures (timeout, connection reset, JSON decode
error) and for HTTP responses with status ≥ 400 — whose line-56
`APIRequestError(status, body)` is swallowed and re-wrapped by the generic
handler, the status and body surviving only in the message string — while
an `aiohttp.ClientResponseError` (e.g. a malformed response with an
unexpected content type) surfaces with that error's own status code. -/
theorem requestSnapshot_error_translation :
    (∀ (st : Nat) (body : JVal), 400 ≤ st →
      request_snapshot (.response st body) = .error ⟨0, JVal.object []⟩) ∧
    (∀ m : String,
      request_snapshot (.otherFailure m) = .error ⟨0, JVal.object []⟩) ∧
    (∀ (st : Nat) (m : String),
      request_snapshot (.clientResponseError st m) = .error ⟨st, JVal.object []⟩) := by
  refine ⟨?_, fun m => rfl, fun st m => rfl⟩
  intro st body h
  simp [request_snapshot, h]

/-- Witness for the amended C3: HTTP 500 with body `{detail: "boom"}` and a
timeout both surface with status 0 and an empty object; a
`ClientResponseError` from a malformed 502 response surfaces with status
502. -/
theorem requestSnapshot_error_translation_witness :
    request_snapshot (.response 500 (JVal.object [("detail", JVal.string "boom")])) =
      .error ⟨0, JVal.object []⟩ ∧
    request_snapshot (.otherFailure "Connection timeout") =
      .error ⟨0, JVal.object []⟩ ∧
    request_snapshot (.clientResponseError 502
        "Attempt to decode JSON with unexpected mimetype") =
      .error ⟨502, JVal.object []⟩ :=
  ⟨requestSnapshot_error_translation.1 500 _ (by omega),
   requestSnapshot_error_translation.2.1 "Connection timeout",
   requestSnapshot_error_translation.2.2 502
     "Attempt to decode JSON with unexpected mimetype"⟩

/-! ### Claims about the task poller -/

/-- C2: the polling interval defaults to 2; the loop returns the first
response whose `status` is `"SUCCESS"` or `"FAILED"`, sleeping the fixed
interval once per preceding pending response; and on a response sequence
consisting solely of pending statuses the loop neither returns nor raises
(the model runs out of responses), there being no maximum attempt count. -/
theorem pollTaskStatus_first_terminal :
    defaultPollingInterval = 2 ∧
    (∀ (interval : Nat) (pre : List PollStep) (st : Nat) (b : PollBody)
        (rest : List PollStep),
      (∀ p ∈ pre, ∃ s2 b2, p = PollStep.response s2 b2 ∧ s2 < 400 ∧
        b2.status ≠ "SUCCESS" ∧ b2.status ≠ "FAILED") →
      st < 400 → (b.status = "SUCCESS" ∨ b.status = "FAILED") →
      poll_task_status interval (pre ++ PollStep.response st b :: rest) =
        .terminal b (interval * pre.length)) ∧
    (∀ (interval : Nat) (steps : List PollStep),
      (∀ p ∈ steps, ∃ s2 b2, p = PollStep.response s2 b2 ∧ s2 < 400 ∧
        b2.status ≠ "SUCCESS" ∧ b2.status ≠ "FAILED") →
      poll_task_status interval steps = .outOfResponses (interval * steps.length)) := by
  refine ⟨rfl, ?_, ?_⟩
  · intro interval pre st b rest hpre hst hterm
    induction pre with
    | nil =>
      simp only [List.nil_append, poll_task_status]
      rw [if_neg (by omega), if_pos hterm]
      simp
    | cons p pre2 ih =>
      obtain ⟨s2, b2, hp, hs2, hS, hF⟩ := hpre p (List.mem_cons_self p pre2)
      subst hp
      have hpre2 : ∀ q ∈ pre2, ∃ s3 b3, q = PollStep.response s3 b3 ∧ s3 < 400 ∧
          b3.status ≠ "SUCCESS" ∧ b3.status ≠ "FAILED" :=
        fun q hq => hpre q (List.mem_cons_of_mem _ hq)
      simp only [List.cons_append, poll_task_status]
      rw [if_neg (by omega), if_neg (by simp [hS, hF])]
      simp only [List.append_eq]
      rw [ih hpre2]
      have harith : interval + interval * pre2.length = interval * (pre2.length + 1) := by
        ring
      simp [harith]
  · intro interval steps hall
    induction steps with
    | nil => rfl
    | cons p t ih =>
      obtain ⟨s2, b2, hp, hs2, hS, hF⟩ := hall p (List.mem_cons_self p t)
      subst hp
      have ht : ∀ q ∈ t, ∃ s3 b3, q = PollStep.response s3 b3 ∧ s3 < 400 ∧
          b3.status ≠ "SUCCESS" ∧ b3.status ≠ "FAILED" :=
        fun q hq => hall q (List.mem_cons_of_mem _ hq)
      simp only [poll_task_status]
      rw [if_neg (by omega), if_neg (by simp [hS, hF])]
      rw [ih ht]
      have harith : interval + interval * t.length = interval * (t.length + 1) := by ring
      simp [harith]

/-- Witness for C2: one `PENDING` response before a `SUCCESS` one costs one
2-unit sleep; a sequence of a single `PENDING` response terminates nothing. -/
theorem pollTaskStatus_first_terminal_witness :
    poll_task_status 2
      [.response 200 ⟨"PENDING", none⟩,
       .response 200 ⟨"SUCCESS", some ⟨some "https://u", none⟩⟩] =
      .terminal ⟨"SUCCESS", some ⟨some "https://u", none⟩⟩ 2 ∧
    poll_task_status 2 [.response 200 ⟨"PENDING", none⟩] = .outOfResponses 2 := by
  constructor
  · have h := pollTaskStatus_first_terminal.2.1 2 [.response 200 ⟨"PENDING", none⟩]
      200 ⟨"SUCCESS", some ⟨some "https://u", none⟩⟩ []
      (by
        intro p hp
        simp only [List.mem_singleton] at hp
        subst hp
        exact ⟨200, ⟨"PENDING", none⟩, rfl, by omega, by decide, by decide⟩)
      (by omega) (Or.inl rfl)
    simpa using h
  · have h := pollTaskStatus_first_terminal.2.2 2 [.response 200 ⟨"PENDING", none⟩]
      (by
        intro p hp
        simp only [List.mem_singleton] at hp
        subst hp
        exact ⟨200, ⟨"PENDING", none⟩, rfl, by omega, by decide, by decide⟩)
    simpa using h

/-! ### Claims about the orchestrator tail of `get_osm_data` -/

/-- C1: for a terminal poll result with status `"FAILED"`, or with status
`"SUCCESS"` whose `result` object carries no `download_url`, `get_osm_data`
raises `DownloadError` whose message includes the terminal status and, when
the `result` object carries a truthy `error_msg`, that error message; it
never calls `download_snapshot`. -/
theorem getOsmData_failure_raises_DownloadError (r : PollBody) (file_name : String)
    (h : r.status = "FAILED" ∨
      (r.status = "SUCCESS" ∧ ∃ res, r.result = some res ∧ res.download_url = none)) :
    ∃ msg, handleTerminalResult r file_name = .downloadError msg ∧
      (∃ suf, msg = "Task failed with status: " ++ r.status ++ suf) ∧
      (∀ res e, r.result = some res → res.error_msg = some e → e.isEmpty = false →
        ∃ pre, msg = pre ++ e) ∧
      (∀ u f2, handleTerminalResult r file_name ≠ .downloaded u f2) := by
  have hfp : handleTerminalResult r file_name = failurePath r := by
    rcases h with hF | ⟨hS, res, hres, hdl⟩
    · unfold handleTerminalResult
      rw [if_neg (by rw [hF]; decide)]
    · simp [handleTerminalResult, hS, hres, optStrTruthy, hdl]
  obtain ⟨status, result⟩ := r
  cases result with
  | none =>
    refine ⟨"Task failed with status: " ++ status, ?_, ⟨"", by simp⟩, ?_, ?_⟩
    · rw [hfp]; rfl
    · intro res e hres
      exact absurd hres (by simp)
    · intro u f2 hc
      rw [hfp] at hc
      exact GetOsmOutcome.noConfusion hc
  | some res0 =>
    cases hmsg : res0.error_msg with
    | none =>
      refine ⟨"Task failed with status: " ++ status, ?_, ⟨"", by simp⟩, ?_, ?_⟩
      · rw [hfp]
        simp [failurePath, hmsg]
      · intro res e hres hemsg
        rw [Option.some_inj] at hres
        subst hres
        rw [hmsg] at hemsg
        exact Option.noConfusion hemsg
      · intro u f2 hc
        rw [hfp] at hc
        simp [failurePath, hmsg] at hc
    | some e0 =>
      cases hemp : e0.isEmpty with
      | true =>
        refine ⟨"Task failed with status: " ++ status, ?_, ⟨"", by simp⟩, ?_, ?_⟩
        · rw [hfp]
          simp [failurePath, hmsg, hemp]
        · intro res e hres hemsg hne
          rw [Option.some_inj] at hres
          subst hres
          rw [hmsg, Option.some_inj] at hemsg
          subst hemsg
          rw [hemp] at hne
          exact Bool.noConfusion hne
        · intro u f2 hc
          rw [hfp] at hc
          simp [failurePath, hmsg, hemp] at hc
      | false =>
        refine ⟨"Task failed with status: " ++ status ++ " - " ++ e0, ?_, ?_, ?_, ?_⟩
        · rw [hfp]
          simp [failurePath, hmsg, hemp]
        · exact ⟨" - " ++ e0, by rw [String.append_assoc]⟩
        · intro res e hres hemsg
          rw [Option.some_inj] at hres
          subst hres
          rw [hmsg, Option.some_inj] at hemsg
          subst hemsg
          exact fun _ => ⟨"Task failed with status: " ++ status ++ " - ", rfl⟩
        · intro u f2 hc
          rw [hfp] at hc
          simp [failurePath, hmsg, hemp] at hc

/-- Witness for C1 at the terminal result
`{status: "FAILED", result: {error_msg: "boom"}}`. -/
theorem getOsmData_failure_raises_DownloadError_witness :
    ∃ msg, handleTerminalResult ⟨"FAILED", some ⟨none, some "boom"⟩⟩ "osm_export" =
        .downloadError msg ∧
      (∃ suf, msg = "Task failed with status: " ++ "FAILED" ++ suf) ∧
      (∀ res e, (some ⟨none, some "boom"⟩ : Option TaskResultObj) = some res →
        res.error_msg = some e → e.isEmpty = false → ∃ pre, msg = pre ++ e) ∧
      (∀ u f2, handleTerminalResult ⟨"FAILED", some ⟨none, some "boom"⟩⟩ "osm_export" ≠
        .downloaded u f2) :=
  getOsmData_failure_raises_DownloadError ⟨"FAILED", some ⟨none, some "boom"⟩⟩
    "osm_export" (Or.inl rfl)

/-- C9: a terminal result with status `"SUCCESS"` and no `result` field at
all makes line 222 of `api.py` raise a `KeyError` for the key `"result"` —
an exception outside the four documented client-error kinds, and in
particular not a `DownloadError`. -/
theorem getOsmData_success_without_result_keyError (r : PollBody) (file_name : String)
    (hS : r.status = "SUCCESS") (hres : r.result = none) :
    handleTerminalResult r file_name = .keyError "result" ∧
    ∀ m, handleTerminalResult r file_name ≠ .downloadError m := by
  have h : handleTerminalResult r file_name = .keyError "result" := by
    simp [handleTerminalResult, hS, hres]
  exact ⟨h, fun m hc => GetOsmOutcome.noConfusion (h ▸ hc)⟩

/-- Witness for C9 at the terminal result `{status: "SUCCESS"}`. -/
theorem getOsmData_success_without_result_keyError_witness :
    handleTerminalResult ⟨"SUCCESS", none⟩ "osm_export" = .keyError "result" ∧
    ∀ m, handleTerminalResult ⟨"SUCCESS", none⟩ "osm_export" ≠ .downloadError m :=
  getOsmData_success_without_result_keyError ⟨"SUCCESS", none⟩ "osm_export" rfl rfl

/-! ### Claims about the archive decoder -/

/-- The selection loop of lines 144-148 of `api.py` computes the first name
satisfying the substring test, with the seeded default when none does. -/
theorem findDataFile_eq_find? (l : List String) (hint d : String) :
    findDataFile l hint d = (l.find? (fun n => strContains n hint)).getD d := by
  induction l with
  | nil => rfl
  | cons x t ih =>
    cases hx : strContains x hint with
    | true => simp [findDataFile, hx, List.find?_cons_of_pos]
    | false =>
      rw [List.find?_cons_of_neg _ (by simp [hx])]
      simp [findDataFile, hx, ih]

/-- C5: on an archive whose listing has fewer than two entries,
`_extract_zip_data` fails with a `DownloadError` stating that at least 2
files were expected, and returns no payload. -/
theorem extractZip_too_few_entries (entries : List ZipEntry) (file_name : String)
    (h : entries.length < 2) :
    extractZipData entries file_name =
      .error ("Expected at least 2 files in the archive, found " ++
        toString entries.length) ∧
    ∀ payload, extractZipData entries file_name ≠ .ok payload := by
  have hsel : selectDataFile entries file_name = none := by
    match entries with
    | [] => rfl
    | [e] => rfl
    | e0 :: e1 :: rest => simp at h; omega
  have heq : extractZipData entries file_name =
      .error ("Expected at least 2 files in the archive, found " ++
        toString entries.length) := by
    unfold extractZipData
    rw [hsel]
  exact ⟨heq, fun payload hc => Except.noConfusion (heq ▸ hc)⟩

/-- Witness for C5 at a one-entry archive. -/
theorem extractZip_too_few_entries_witness :
    extractZipData [⟨"osm_export.geojson", "gj"⟩] "osm_export" =
      .error ("Expected at least 2 files in the archive, found " ++ toString (1 : Nat)) ∧
    ∀ payload, extractZipData [⟨"osm_export.geojson", "gj"⟩] "osm_export" ≠ .ok payload :=
  extractZip_too_few_entries [⟨"osm_export.geojson", "gj"⟩] "osm_export" (by decide)

/-- C4: on an archive with at least two entries, the decoder selects an
entry whose name contains the file-name hint as a substring when one
exists, and otherwise falls back to the entry at index 1 of the listing. -/
theorem extractZip_selects_match_or_second (entries : List ZipEntry) (hint : String)
    (h2 : 2 ≤ entries.length) :
    ((∃ n ∈ entries.map ZipEntry.name, strContains n hint = true) →
      ∃ f, selectDataFile entries hint = some f ∧
        f ∈ entries.map ZipEntry.name ∧ strContains f hint = true) ∧
    ((∀ n ∈ entries.map ZipEntry.name, strContains n hint = false) →
      selectDataFile entries hint = (entries.map ZipEntry.name)[1]?) := by
  match entries with
  | [] => simp at h2
  | [e] => simp at h2
  | e0 :: e1 :: rest =>
    constructor
    · rintro ⟨n, hn, hcont⟩
      have hsome : (((e0 :: e1 :: rest).map ZipEntry.name).find?
          (fun n => strContains n hint)).isSome :=
        List.find?_isSome.mpr ⟨n, hn, hcont⟩
      obtain ⟨f, hf⟩ := Option.isSome_iff_exists.mp hsome
      refine ⟨f, ?_, List.mem_of_find?_eq_some hf, by simpa using List.find?_some hf⟩
      show some (findDataFile ((e0 :: e1 :: rest).map ZipEntry.name) hint e1.name) = some f
      rw [findDataFile_eq_find?, hf]
      rfl
    · intro hall
      have hnone : ((e0 :: e1 :: rest).map ZipEntry.name).find?
          (fun n => strContains n hint) = none :=
        List.find?_eq_none.mpr (fun x hx => by simp [hall x hx])
      show some (findDataFile ((e0 :: e1 :: rest).map ZipEntry.name) hint e1.name) =
        ((e0 :: e1 :: rest).map ZipEntry.name)[1]?
      rw [findDataFile_eq_find?, hnone]
      simp

/-- Witness for C4: with hint `"data"` the matching entry `data.geojson`
is selected over the positional default; with hint `"zzz"` and no match the
second listed entry is selected. -/
theorem extractZip_selects_match_or_second_witness :
    (∃ f, selectDataFile [⟨"meta.txt", "m"⟩, ⟨"other.csv", "o"⟩, ⟨"data.geojson", "d"⟩]
        "data" = some f ∧
      f ∈ [⟨"meta.txt", "m"⟩, ⟨"other.csv", "o"⟩,
        (⟨"data.geojson", "d"⟩ : ZipEntry)].map ZipEntry.name ∧
      strContains f "data" = true) ∧
    selectDataFile [⟨"meta.txt", "m"⟩, ⟨"other.csv", "o"⟩] "zzz" =
      ([⟨"meta.txt", "m"⟩, (⟨"other.csv", "o"⟩ : ZipEntry)].map ZipEntry.name)[1]? :=
  ⟨(extractZip_selects_match_or_second _ "data" (by decide)).1
      ⟨"data.geojson", by decide, by decide⟩,
   (extractZip_selects_match_or_second _ "zzz" (by decide)).2
      (by intro n hn; fin_cases hn <;> decide)⟩

/-- C10: when at least two entry names contain the hint, the decoder
selects the first matching name in the archive's listing order. -/
theorem extractZip_first_match_priority (entries : List ZipEntry) (hint : String)
    (hmulti : 2 ≤ ((entries.map ZipEntry.name).filter
      (fun n => strContains n hint)).length) :
    selectDataFile entries hint =
      (entries.map ZipEntry.name).find? (fun n => strContains n hint) := by
  have hlen : 2 ≤ entries.length := by
    have h1 : ((entries.map ZipEntry.name).filter (fun n => strContains n hint)).length ≤
        (entries.map ZipEntry.name).length := List.length_filter_le _ _
    have h2 : (entries.map ZipEntry.name).length = entries.length := List.length_map _ _
    omega
  match entries with
  | [] => simp at hlen
  | [e] => simp at hlen
  | e0 :: e1 :: rest =>
    obtain ⟨x, hx⟩ := List.exists_mem_of_length_pos (l :=
      ((e0 :: e1 :: rest).map ZipEntry.name).filter (fun n => strContains n hint))
      (by omega)
    obtain ⟨hxmem, hxp⟩ := List.mem_filter.mp hx
    have hsome : (((e0 :: e1 :: rest).map ZipEntry.name).find?
        (fun n => strContains n hint)).isSome :=
      List.find?_isSome.mpr ⟨x, hxmem, hxp⟩
    obtain ⟨f, hf⟩ := Option.isSome_iff_exists.mp hsome
    show some (findDataFile ((e0 :: e1 :: rest).map ZipEntry.name) hint e1.name) =
      ((e0 :: e1 :: rest).map ZipEntry.name).find? (fun n => strContains n hint)
    rw [findDataFile_eq_find?, hf]
    rfl

/-- Witness for C10: both `data1.geojson` and `data2.geojson` contain the
hint `"data"`; the first in listing order is selected. -/
theorem extractZip_first_match_priority_witness :
    selectDataFile [⟨"data1.geojson", "a"⟩, ⟨"data2.geojson", "b"⟩] "data" =
      ([⟨"data1.geojson", "a"⟩, (⟨"data2.geojson", "b"⟩ : ZipEntry)].map
        ZipEntry.name).find? (fun n => strContains n "data") :=
  extractZip_first_match_priority _ "data" (by decide)

end OsmClient
